import Mathlib

/-!
Shallow embedding of the kumparan/restrix distributed circuit breaker.

The store model mirrors the Redis commands the breaker issues (SETNX, GET,
INCR, SET, UNLINK, EXPIRE ... NX) as pure functions on a key-value state.
Each MULTI/EXEC block in the source is one Lean function applying its
commands in order.  Durations are modelled in whole seconds as integers,
which is the granularity the code observes (EXPIRE and the marker check).

Two breaker variants of the repository are embedded:
 * `Breaker.DoCtx` together with `Breaker.init`, `Breaker.preRun`,
   `Breaker.flipClose`, `Breaker.flipOpen`, `Breaker.recordError` follows
   the current variant (part_000 lines 202-499).
 * `Breaker.Do` together with the `...Legacy` helpers follows the older
   variant (part_000 lines 500-757).
-/

/-- A stored value: Redis stores strings; the breaker writes either a state
string or an integer counter, so the two shapes are distinguished here. -/
inductive Val where
  | str : String → Val
  | int : Int → Val
deriving DecidableEq

/-- One store entry: its value and its remaining time to live in seconds
(`none` means the key does not expire). -/
structure Entry where
  val : Val
  ttl : Option Int
deriving DecidableEq

/-- The shared key-value store, one breaker's window of it. -/
structure Store where
  data : String → Option Entry

/-- The store with no keys at all. -/
def Store.empty : Store := ⟨fun _ => none⟩

/-- SET key value: writes the value and discards any expiry the key had
(plain Redis SET removes a pre-existing TTL). -/
def Store.set (s : Store) (k : String) (v : Val) : Store :=
  ⟨fun q => if q = k then some ⟨v, none⟩ else s.data q⟩

/-- SETNX key value: writes only when the key is absent. -/
def Store.setnx (s : Store) (k : String) (v : Val) : Store :=
  match s.data k with
  | some _ => s
  | none => s.set k v

/-- INCR key: absent counts as 0 and becomes 1; an integer value is
incremented in place, keeping its expiry.  On a non-integer value Redis
fails the command inside EXEC and writes nothing, so the store is left
unchanged; the breaker never stores a non-integer under a counter key. -/
def Store.incr (s : Store) (k : String) : Store :=
  match s.data k with
  | none => ⟨fun q => if q = k then some ⟨Val.int 1, none⟩ else s.data q⟩
  | some e =>
    match e.val with
    | Val.int n => ⟨fun q => if q = k then some ⟨Val.int (n + 1), e.ttl⟩ else s.data q⟩
    | Val.str _ => s

/-- EXPIRE key seconds NX: sets an expiry only when the key exists and has
no expiry yet. -/
def Store.expireNX (s : Store) (k : String) (t : Int) : Store :=
  match s.data k with
  | some e =>
    match e.ttl with
    | none => ⟨fun q => if q = k then some ⟨e.val, some t⟩ else s.data q⟩
    | some _ => s
  | none => s

/-- UNLINK key: removes the key. -/
def Store.unlink (s : Store) (k : String) : Store :=
  ⟨fun q => if q = k then none else s.data q⟩

/-- The passage of `dt` seconds: every entry with an expiry loses `dt` of
it and disappears once none is left, exactly as Redis drops expired keys. -/
def Store.tick (s : Store) (dt : Int) : Store :=
  ⟨fun q =>
    match s.data q with
    | some e =>
      match e.ttl with
      | some t => if t ≤ dt then none else some ⟨e.val, some (t - dt)⟩
      | none => some e
    | none => none⟩

/-- Reading a key as an integer, the way the source does: `strconv.Atoi`
and `redis.Int` both yield 0 (their zero value, the error being discarded)
for an absent key or a non-numeric value. -/
def entryInt : Option Entry → Int
  | some e =>
    match e.val with
    | Val.int n => n
    | Val.str _ => 0
  | none => 0

/-- Reading a key as a string; an integer value reads back as its decimal
representation (Redis stores it that way), an absent key as "". -/
def entryStr : Option Entry → String
  | some e =>
    match e.val with
    | Val.str v => v
    | Val.int n => toString n
  | none => ""

/-- The key is absent or holds an integer: the domain on which the INCR
model above coincides with Redis (Redis aborts the command otherwise). -/
def intLike : Option Entry → Prop
  | none => True
  | some e =>
    match e.val with
    | Val.int _ => True
    | Val.str _ => False

/-- Key namespacer (src/namespacer.go).  The gosimple/slug normalisation
applied to the human-supplied name is an external library; the model takes
the already-slugged name as its input string. -/
structure namespacer where
  name : String

/-- src/namespacer.go newNamespacer: prepends the constant namespace. -/
def newNamespacer (slugged : String) : namespacer :=
  ⟨"restrix:" ++ slugged⟩

/-- src/namespacer.go currentState key. -/
def namespacer.currentState (n : namespacer) : String :=
  n.name ++ ":current_state"

/-- src/namespacer.go requestCount key. -/
def namespacer.requestCount (n : namespacer) : String :=
  n.name ++ ":request_count"

/-- src/namespacer.go errorCount key. -/
def namespacer.errorCount (n : namespacer) : String :=
  n.name ++ ":error_count"

/-- src/namespacer.go openStateTTL key. -/
def namespacer.openStateTTL (n : namespacer) : String :=
  n.name ++ ":open_state_ttl"

/-- Modelled from the spec: the namespacer method `lastOpenedAt` is called
by flipOpen (part_000 line 459) but its definition is missing from
src/namespacer.go; following the source's uniform naming pattern it maps
the name to one more suffixed key. -/
def namespacer.lastOpenedAt (n : namespacer) : String :=
  n.name ++ ":last_opened_at"

/-- Breaker configuration and engine (part_000 lines 227-235).  The redis
pool handle is the external store collaborator and is represented by the
explicit `Store` argument of each operation.  Field order: interval,
requestCountThreshold, errorPercentThreshold, sleepWindow. -/
structure Breaker where
  interval : Int
  requestCountThreshold : Int
  errorPercentThreshold : Int
  sleepWindow : Int

def circuitStateClosed : String := "CLOSED"

def circuitStateOpened : String := "OPENED"

def circuitStateHalfOpened : String := "HALF_OPENED"

/-- part_000 lines 336-364, Breaker.init: SETNX the state to CLOSED, read
back the state and the open-state marker value.  The marker read uses GET
of the marker key (whose stored value is 1), not a TTL query, so the
returned "TTL" is 1 when the marker is (still) present and 0 otherwise. -/
def Breaker.init (b : Breaker) (s : Store) (name : String) : Store × String × Int :=
  let ns := newNamespacer name
  let s1 := s.setnx ns.currentState (Val.str circuitStateClosed)
  (s1, entryStr (s1.data ns.currentState), entryInt (s1.data ns.openStateTTL))

/-- part_000 lines 366-408, Breaker.preRun: INCR the request counter,
SETNX the error counter to 0, EXPIRE both with NX (only if no expiry is
set yet), read both counters back. -/
def Breaker.preRun (b : Breaker) (s : Store) (name : String) : Store × Int × Int :=
  let ns := newNamespacer name
  let s1 := s.incr ns.requestCount
  let s2 := s1.setnx ns.errorCount (Val.int 0)
  let s3 := s2.expireNX ns.requestCount b.interval
  let s4 := s3.expireNX ns.errorCount b.interval
  (s4, entryInt (s4.data ns.requestCount), entryInt (s4.data ns.errorCount))

/-- part_000 lines 410-437, Breaker.flipClose: SET state CLOSED, UNLINK
the marker and both counters. -/
def Breaker.flipClose (b : Breaker) (s : Store) (name : String) : Store :=
  let ns := newNamespacer name
  ((((s.set ns.currentState (Val.str circuitStateClosed)).unlink
      ns.openStateTTL).unlink ns.requestCount).unlink ns.errorCount)

/-- part_000 lines 439-466, Breaker.flipOpen: SET state OPENED, SET the
marker to 1 (clearing any old expiry), EXPIRE it for the sleep window with
NX (which always fires since SET just cleared the expiry), and SET the
last-opened-at timestamp to the current time. -/
def Breaker.flipOpen (b : Breaker) (s : Store) (name : String) (now : Int) : Store :=
  let ns := newNamespacer name
  ((((s.set ns.currentState (Val.str circuitStateOpened)).set
      ns.openStateTTL (Val.int 1)).expireNX ns.openStateTTL
      b.sleepWindow).set ns.lastOpenedAt (Val.int now))

/-- part_000 lines 468-499, Breaker.recordError: SETNX reqCount 1, SETNX
errCount 0, INCR errCount, EXPIRE both with NX. -/
def Breaker.recordError (b : Breaker) (s : Store) (name : String) : Store :=
  let ns := newNamespacer name
  (((((s.setnx ns.requestCount (Val.int 1)).setnx ns.errorCount
      (Val.int 0)).incr ns.errorCount).expireNX ns.requestCount
      b.interval).expireNX ns.errorCount b.interval)

/-- part_000 line 321: errPercentage = int(float64(errCount+1) /
float64(reqCount) * 100).  The float64 arithmetic is modelled as exact
rational arithmetic followed by truncation; for the nonnegative counts
that occur this is integer division of (errCount+1)*100 by reqCount. -/
def errPercentage (errCount reqCount : Int) : Int :=
  (errCount + 1) * 100 / reqCount

/-- What a guarded call hands back to the caller: the circuit-open error,
a nil error, or the wrapped work item's own error. -/
inductive DoResult where
  | circuitOpen : DoResult
  | ok : DoResult
  | workErr : String → DoResult
deriving DecidableEq

/-- part_000 lines 283-334, Breaker.DoCtx.  The work item is represented
by its outcome: `none` for success, `some msg` for failure with error
`msg`.  The returned Bool records whether the wrapped work was executed.
`now` is the wall-clock second passed to time.Now in flipOpen. -/
def Breaker.DoCtx (b : Breaker) (s : Store) (name : String)
    (work : Option String) (now : Int) : Store × Bool × DoResult :=
  let r0 := b.init s name
  let s1 := r0.1
  let state0 := r0.2.1
  let osTTL := r0.2.2
  if state0 = circuitStateOpened ∧ 0 < osTTL then
    (s1, false, DoResult.circuitOpen)
  else
    let state := if state0 = circuitStateOpened then circuitStateHalfOpened else state0
    let r1 := b.preRun s1 name
    let s2 := r1.1
    let reqCount := r1.2.1
    let errCount := r1.2.2
    match work with
    | none =>
      if state = circuitStateHalfOpened then
        (b.flipClose s2 name, true, DoResult.ok)
      else
        (s2, true, DoResult.ok)
    | some msg =>
      if state = circuitStateHalfOpened then
        (b.flipOpen s2 name now, true, DoResult.workErr msg)
      else if reqCount < b.requestCountThreshold ∨
          errPercentage errCount reqCount < b.errorPercentThreshold then
        (b.recordError s2 name, true, DoResult.workErr msg)
      else
        (b.flipOpen s2 name now, true, DoResult.workErr msg)

/-- part_000 line 594 (legacy Do variant): errPercentage = errCount +
1/reqCount*100 in Go integer arithmetic, so the division binds before the
addition and the expression is errCount + (1/reqCount)*100. -/
def errPercentageLegacy (errCount reqCount : Int) : Int :=
  errCount + 1 / reqCount * 100

/-- part_000 lines 684-703 (legacy variant flipClose): SET state CLOSED
and UNLINK the marker only. -/
def Breaker.flipCloseLegacy (b : Breaker) (s : Store) (name : String) : Store :=
  let ns := newNamespacer name
  (s.set ns.currentState (Val.str circuitStateClosed)).unlink ns.openStateTTL

/-- part_000 lines 705-728 (legacy variant flipOpen): SET state OPENED,
then SET marker 1 <sleepWindow> — the bare duration is an extra argument
Redis rejects at EXEC with a syntax error while the other queued commands
still run, so the marker is not written — then EXPIRE marker NX, which
only touches a pre-existing marker without an expiry. -/
def Breaker.flipOpenLegacy (b : Breaker) (s : Store) (name : String) : Store :=
  let ns := newNamespacer name
  (s.set ns.currentState (Val.str circuitStateOpened)).expireNX ns.openStateTTL b.sleepWindow

/-- part_000 lines 730-757 (legacy variant recordError): SETNX reqCount 1,
INCR errCount, EXPIRE both with NX. -/
def Breaker.recordErrorLegacy (b : Breaker) (s : Store) (name : String) : Store :=
  let ns := newNamespacer name
  ((((s.setnx ns.requestCount (Val.int 1)).incr ns.errorCount).expireNX
      ns.requestCount b.interval).expireNX ns.errorCount b.interval)

/-- part_000 lines 556-609, the legacy Breaker.Do.  Its init and preRun
bodies (lines 611-682) are command-for-command the same as the current
variant's, so they are shared here.  On the wrapped-call failure paths the
legacy variant returns nil (lines 600 and 608), modelled as DoResult.ok. -/
def Breaker.Do (b : Breaker) (s : Store) (name : String)
    (work : Option String) : Store × Bool × DoResult :=
  let r0 := b.init s name
  let s1 := r0.1
  let state0 := r0.2.1
  let osTTL := r0.2.2
  if state0 = circuitStateOpened ∧ 0 < osTTL then
    (s1, false, DoResult.circuitOpen)
  else
    let state := if state0 = circuitStateOpened then circuitStateHalfOpened else state0
    let r1 := b.preRun s1 name
    let s2 := r1.1
    let reqCount := r1.2.1
    let errCount := r1.2.2
    match work with
    | none =>
      if state = circuitStateHalfOpened then
        (b.flipCloseLegacy s2 name, true, DoResult.ok)
      else
        (s2, true, DoResult.ok)
    | some _ =>
      if state = circuitStateHalfOpened then
        (b.flipOpenLegacy s2 name, true, DoResult.ok)
      else if reqCount < b.requestCountThreshold ∧
          errPercentageLegacy errCount reqCount < b.errorPercentThreshold then
        (b.recordErrorLegacy s2 name, true, DoResult.ok)
      else
        (b.flipOpenLegacy s2 name, true, DoResult.ok)

/-- Modelled from the spec's words, for comparison with the source's
formulas: errorPercent = (errorCount + 1) / requestCount * 100 with exact
(real) division, truncated to an integer percentage. -/
def specErrorRatio (errCount reqCount : Int) : Int :=
  ⌊((errCount + 1 : ℚ) / (reqCount : ℚ)) * 100⌋

/-- Observer: the stored circuit state of a breaker name. -/
def stateOf (s : Store) (name : String) : String :=
  entryStr (s.data (newNamespacer name).currentState)

/-- Observer: the request counter of a breaker name, read as the code
reads it (absent = 0). -/
def reqOf (s : Store) (name : String) : Int :=
  entryInt (s.data (newNamespacer name).requestCount)

/-- Observer: the error counter of a breaker name, read as the code reads
it (absent = 0). -/
def errOf (s : Store) (name : String) : Int :=
  entryInt (s.data (newNamespacer name).errorCount)

/-- Observer: the open-state marker entry of a breaker name. -/
def markerOf (s : Store) (name : String) : Option Entry :=
  s.data (newNamespacer name).openStateTTL

/-- Stores reachable for one breaker name by guarded calls (current
variant) interleaved with the passage of time, starting from an empty
store. -/
inductive Reachable (b : Breaker) (name : String) : Store → Prop where
  | base : Reachable b name Store.empty
  | call (s : Store) (w : Option String) (now : Int) :
      Reachable b name s → Reachable b name (b.DoCtx s name w now).1
  | tick (s : Store) (dt : Int) :
      0 < dt → Reachable b name s → Reachable b name (s.tick dt)

/-! Helper lemmas about keys and store operations. -/

lemma append_ne_of_ne (base : String) {a b : String} (h : a ≠ b) :
    base ++ a ≠ base ++ b := by
  intro he
  apply h
  have hd := congrArg String.data he
  simp [String.data_append] at hd
  exact String.ext hd

lemma ns_state_ne_req (n : namespacer) : n.currentState ≠ n.requestCount :=
  append_ne_of_ne _ (by decide)

lemma ns_state_ne_err (n : namespacer) : n.currentState ≠ n.errorCount :=
  append_ne_of_ne _ (by decide)

lemma ns_state_ne_marker (n : namespacer) : n.currentState ≠ n.openStateTTL :=
  append_ne_of_ne _ (by decide)

lemma ns_state_ne_last (n : namespacer) : n.currentState ≠ n.lastOpenedAt :=
  append_ne_of_ne _ (by decide)

lemma ns_req_ne_err (n : namespacer) : n.requestCount ≠ n.errorCount :=
  append_ne_of_ne _ (by decide)

lemma ns_req_ne_marker (n : namespacer) : n.requestCount ≠ n.openStateTTL :=
  append_ne_of_ne _ (by decide)

lemma ns_req_ne_last (n : namespacer) : n.requestCount ≠ n.lastOpenedAt :=
  append_ne_of_ne _ (by decide)

lemma ns_err_ne_marker (n : namespacer) : n.errorCount ≠ n.openStateTTL :=
  append_ne_of_ne _ (by decide)

lemma ns_err_ne_last (n : namespacer) : n.errorCount ≠ n.lastOpenedAt :=
  append_ne_of_ne _ (by decide)

lemma ns_marker_ne_last (n : namespacer) : n.openStateTTL ≠ n.lastOpenedAt :=
  append_ne_of_ne _ (by decide)

lemma Store.data_set_self (s : Store) (k : String) (v : Val) :
    (s.set k v).data k = some ⟨v, none⟩ := by
  simp [Store.set]

lemma Store.data_set_ne (s : Store) (k : String) (v : Val) {q : String} (h : q ≠ k) :
    (s.set k v).data q = s.data q := by
  simp [Store.set, h]

lemma Store.data_setnx_ne (s : Store) (k : String) (v : Val) {q : String} (h : q ≠ k) :
    (s.setnx k v).data q = s.data q := by
  unfold Store.setnx
  cases s.data k
  · simp [Store.data_set_ne _ _ _ h]
  · rfl

lemma Store.setnx_of_present (s : Store) (k : String) (v : Val) {e : Entry}
    (h : s.data k = some e) : s.setnx k v = s := by
  unfold Store.setnx
  rw [h]

lemma Store.data_incr_ne (s : Store) (k : String) {q : String} (h : q ≠ k) :
    (s.incr k).data q = s.data q := by
  unfold Store.incr
  cases hk : s.data k with
  | none => simp [h]
  | some e =>
    obtain ⟨v, tt⟩ := e
    cases v <;> simp [h]

lemma Store.data_unlink_self (s : Store) (k : String) :
    (s.unlink k).data k = none := by
  simp [Store.unlink]

lemma Store.data_unlink_ne (s : Store) (k : String) {q : String} (h : q ≠ k) :
    (s.unlink k).data q = s.data q := by
  simp [Store.unlink, h]

lemma Store.data_expireNX_ne (s : Store) (k : String) (t : Int) {q : String}
    (h : q ≠ k) : (s.expireNX k t).data q = s.data q := by
  unfold Store.expireNX
  cases hk : s.data k with
  | none => rfl
  | some e =>
    obtain ⟨v, tt⟩ := e
    cases tt <;> simp [h]

lemma Store.entryInt_expireNX (s : Store) (k : String) (t : Int) (q : String) :
    entryInt ((s.expireNX k t).data q) = entryInt (s.data q) := by
  by_cases hq : q = k
  · subst hq
    unfold Store.expireNX
    cases hk : s.data q with
    | none => simp [hk]
    | some e =>
      obtain ⟨v, tt⟩ := e
      cases tt with
      | none => simp [hk, entryInt]
      | some t0 => simp [hk]
  · rw [Store.data_expireNX_ne _ _ _ hq]

lemma Store.entryStr_expireNX (s : Store) (k : String) (t : Int) (q : String) :
    entryStr ((s.expireNX k t).data q) = entryStr (s.data q) := by
  by_cases hq : q = k
  · subst hq
    unfold Store.expireNX
    cases hk : s.data q with
    | none => simp [hk]
    | some e =>
      obtain ⟨v, tt⟩ := e
      cases tt with
      | none => simp [hk, entryStr]
      | some t0 => simp [hk]
  · rw [Store.data_expireNX_ne _ _ _ hq]

lemma init_store (b : Breaker) (s : Store) (name : String) :
    (b.init s name).1
      = s.setnx (newNamespacer name).currentState (Val.str circuitStateClosed) := rfl

lemma init_data_ne (b : Breaker) (s : Store) (name : String) {q : String}
    (h : q ≠ (newNamespacer name).currentState) :
    ((b.init s name).1).data q = s.data q :=
  Store.data_setnx_ne _ _ _ h

lemma init_of_present (b : Breaker) (s : Store) (name : String) {e : Entry}
    (h : s.data (newNamespacer name).currentState = some e) :
    (b.init s name).1 = s := by
  rw [init_store, Store.setnx_of_present _ _ _ h]

lemma preRun_store (b : Breaker) (s : Store) (name : String) :
    (b.preRun s name).1
      = (((s.incr (newNamespacer name).requestCount).setnx
          (newNamespacer name).errorCount (Val.int 0)).expireNX
          (newNamespacer name).requestCount b.interval).expireNX
          (newNamespacer name).errorCount b.interval := rfl

lemma preRun_data_ne (b : Breaker) (s : Store) (name : String) {q : String}
    (hR : q ≠ (newNamespacer name).requestCount)
    (hE : q ≠ (newNamespacer name).errorCount) :
    ((b.preRun s name).1).data q = s.data q := by
  rw [preRun_store, Store.data_expireNX_ne _ _ _ hE, Store.data_expireNX_ne _ _ _ hR,
    Store.data_setnx_ne _ _ _ hE, Store.data_incr_ne _ _ hR]

lemma recordError_data_ne (b : Breaker) (s : Store) (name : String) {q : String}
    (hR : q ≠ (newNamespacer name).requestCount)
    (hE : q ≠ (newNamespacer name).errorCount) :
    (b.recordError s name).data q = s.data q := by
  unfold Breaker.recordError
  rw [Store.data_expireNX_ne _ _ _ hE, Store.data_expireNX_ne _ _ _ hR,
    Store.data_incr_ne _ _ hE, Store.data_setnx_ne _ _ _ hE,
    Store.data_setnx_ne _ _ _ hR]

lemma flipOpen_data_ne (b : Breaker) (s : Store) (name : String) (now : Int)
    {q : String}
    (hS : q ≠ (newNamespacer name).currentState)
    (hM : q ≠ (newNamespacer name).openStateTTL)
    (hL : q ≠ (newNamespacer name).lastOpenedAt) :
    (b.flipOpen s name now).data q = s.data q := by
  unfold Breaker.flipOpen
  rw [Store.data_set_ne _ _ _ hL, Store.data_expireNX_ne _ _ _ hM,
    Store.data_set_ne _ _ _ hM, Store.data_set_ne _ _ _ hS]

lemma flipClose_data_ne (b : Breaker) (s : Store) (name : String) {q : String}
    (hS : q ≠ (newNamespacer name).currentState)
    (hM : q ≠ (newNamespacer name).openStateTTL)
    (hR : q ≠ (newNamespacer name).requestCount)
    (hE : q ≠ (newNamespacer name).errorCount) :
    (b.flipClose s name).data q = s.data q := by
  unfold Breaker.flipClose
  rw [Store.data_unlink_ne _ _ hE, Store.data_unlink_ne _ _ hR,
    Store.data_unlink_ne _ _ hM, Store.data_set_ne _ _ _ hS]

lemma flipOpen_data_state (b : Breaker) (s : Store) (name : String) (now : Int) :
    (b.flipOpen s name now).data (newNamespacer name).currentState
      = some ⟨Val.str circuitStateOpened, none⟩ := by
  unfold Breaker.flipOpen
  rw [Store.data_set_ne _ _ _ (ns_state_ne_last _),
    Store.data_expireNX_ne _ _ _ (ns_state_ne_marker _),
    Store.data_set_ne _ _ _ (ns_state_ne_marker _), Store.data_set_self]

lemma flipOpen_data_marker (b : Breaker) (s : Store) (name : String) (now : Int) :
    (b.flipOpen s name now).data (newNamespacer name).openStateTTL
      = some ⟨Val.int 1, some b.sleepWindow⟩ := by
  unfold Breaker.flipOpen
  rw [Store.data_set_ne _ _ _ (ns_marker_ne_last _)]
  unfold Store.expireNX
  rw [Store.data_set_self]
  simp

lemma flipOpen_data_last (b : Breaker) (s : Store) (name : String) (now : Int) :
    (b.flipOpen s name now).data (newNamespacer name).lastOpenedAt
      = some ⟨Val.int now, none⟩ := by
  unfold Breaker.flipOpen
  rw [Store.data_set_self]

lemma flipClose_data_state (b : Breaker) (s : Store) (name : String) :
    (b.flipClose s name).data (newNamespacer name).currentState
      = some ⟨Val.str circuitStateClosed, none⟩ := by
  unfold Breaker.flipClose
  rw [Store.data_unlink_ne _ _ (ns_state_ne_err _),
    Store.data_unlink_ne _ _ (ns_state_ne_req _),
    Store.data_unlink_ne _ _ (ns_state_ne_marker _), Store.data_set_self]

lemma flipClose_data_marker (b : Breaker) (s : Store) (name : String) :
    (b.flipClose s name).data (newNamespacer name).openStateTTL = none := by
  unfold Breaker.flipClose
  rw [Store.data_unlink_ne _ _ (Ne.symm (ns_err_ne_marker _)),
    Store.data_unlink_ne _ _ (Ne.symm (ns_req_ne_marker _)), Store.data_unlink_self]

lemma flipClose_data_req (b : Breaker) (s : Store) (name : String) :
    (b.flipClose s name).data (newNamespacer name).requestCount = none := by
  unfold Breaker.flipClose
  rw [Store.data_unlink_ne _ _ (ns_req_ne_err _), Store.data_unlink_self]

lemma flipClose_data_err (b : Breaker) (s : Store) (name : String) :
    (b.flipClose s name).data (newNamespacer name).errorCount = none := by
  unfold Breaker.flipClose
  rw [Store.data_unlink_self]

/-- The value part of an entry, ignoring the expiry. -/
def entryVal : Option Entry → Option Val
  | some e => some e.val
  | none => none

lemma Store.entryVal_expireNX (s : Store) (k : String) (t : Int) (q : String) :
    entryVal ((s.expireNX k t).data q) = entryVal (s.data q) := by
  by_cases hq : q = k
  · subst hq
    unfold Store.expireNX
    cases hk : s.data q with
    | none => simp [hk]
    | some e =>
      obtain ⟨v, tt⟩ := e
      cases tt with
      | none => simp [hk, entryVal]
      | some t0 => simp [hk]
  · rw [Store.data_expireNX_ne _ _ _ hq]

lemma Store.entryInt_incr (s : Store) (k : String) (h : intLike (s.data k)) :
    entryInt ((s.incr k).data k) = entryInt (s.data k) + 1 := by
  unfold Store.incr
  cases hk : s.data k with
  | none => simp [hk, entryInt]
  | some e =>
    obtain ⟨v, tt⟩ := e
    cases v with
    | int n => simp [hk, entryInt]
    | str v0 =>
      rw [hk] at h
      exact absurd h (by simp [intLike])

lemma Store.entryInt_incr_of_int (s : Store) (k : String) {n : Int}
    (h : entryVal (s.data k) = some (Val.int n)) :
    entryInt ((s.incr k).data k) = n + 1 := by
  unfold Store.incr
  cases hk : s.data k with
  | none => rw [hk] at h; exact absurd h (by simp [entryVal])
  | some e =>
    obtain ⟨v, tt⟩ := e
    rw [hk] at h
    cases v with
    | int m =>
      simp only [entryVal] at h
      cases h
      simp [hk, entryInt]
    | str v0 => exact absurd h (by simp [entryVal])

lemma Store.entryInt_setnx_zero (s : Store) (k : String) :
    entryInt ((s.setnx k (Val.int 0)).data k) = entryInt (s.data k) := by
  unfold Store.setnx
  cases hk : s.data k with
  | none => simp [hk, Store.data_set_self, entryInt]
  | some e => simp [hk]

lemma preRun_req_count (b : Breaker) (s : Store) (name : String)
    (hR : intLike (s.data (newNamespacer name).requestCount)) :
    (b.preRun s name).2.1 = entryInt (s.data (newNamespacer name).requestCount) + 1 := by
  show entryInt _ = _
  rw [Store.data_expireNX_ne _ _ _ (ns_req_ne_err _),
    Store.entryInt_expireNX, Store.data_setnx_ne _ _ _ (ns_req_ne_err _),
    Store.entryInt_incr _ _ hR]

lemma preRun_err_count (b : Breaker) (s : Store) (name : String) :
    (b.preRun s name).2.2 = entryInt (s.data (newNamespacer name).errorCount) := by
  show entryInt _ = _
  rw [Store.entryInt_expireNX,
    Store.data_expireNX_ne _ _ _ (Ne.symm (ns_req_ne_err _)),
    Store.entryInt_setnx_zero, Store.data_incr_ne _ _ (Ne.symm (ns_req_ne_err _))]

lemma preRun_err_isInt (b : Breaker) (s : Store) (name : String)
    (hE : intLike (s.data (newNamespacer name).errorCount)) :
    entryVal (((b.preRun s name).1).data (newNamespacer name).errorCount)
      = some (Val.int (entryInt (s.data (newNamespacer name).errorCount))) := by
  rw [preRun_store, Store.entryVal_expireNX,
    Store.data_expireNX_ne _ _ _ (Ne.symm (ns_req_ne_err _))]
  have hIn : (s.incr (newNamespacer name).requestCount).data
      (newNamespacer name).errorCount = s.data (newNamespacer name).errorCount :=
    Store.data_incr_ne _ _ (Ne.symm (ns_req_ne_err _))
  unfold Store.setnx
  rw [hIn]
  cases hk : s.data (newNamespacer name).errorCount with
  | none => simp [hk, hIn, Store.data_set_self, entryVal, entryInt]
  | some e =>
    obtain ⟨v, tt⟩ := e
    cases v with
    | int n =>
      rw [hIn, hk]
      simp [entryVal, entryInt]
    | str v0 =>
      rw [hk] at hE
      exact absurd hE (by simp [intLike])

lemma recordError_err_count (b : Breaker) (s : Store) (name : String) {e0 : Int}
    (h : entryVal (s.data (newNamespacer name).errorCount) = some (Val.int e0)) :
    entryInt ((b.recordError s name).data (newNamespacer name).errorCount)
      = e0 + 1 := by
  obtain ⟨e, he, hv⟩ : ∃ e, s.data (newNamespacer name).errorCount = some e ∧
      e.val = Val.int e0 := by
    cases hk : s.data (newNamespacer name).errorCount with
    | none => rw [hk] at h; exact absurd h (by simp [entryVal])
    | some e =>
      rw [hk] at h
      simp only [entryVal] at h
      exact ⟨e, rfl, Option.some.inj h⟩
  unfold Breaker.recordError
  rw [Store.entryInt_expireNX, Store.data_expireNX_ne _ _ _ (Ne.symm (ns_req_ne_err _))]
  have h1 : ((s.setnx (newNamespacer name).requestCount (Val.int 1)).setnx
      (newNamespacer name).errorCount (Val.int 0))
      = s.setnx (newNamespacer name).requestCount (Val.int 1) := by
    apply Store.setnx_of_present
    rw [Store.data_setnx_ne _ _ _ (Ne.symm (ns_req_ne_err _))]
    exact he
  rw [h1]
  have h2 : entryVal ((s.setnx (newNamespacer name).requestCount (Val.int 1)).data
      (newNamespacer name).errorCount) = some (Val.int e0) := by
    rw [Store.data_setnx_ne _ _ _ (Ne.symm (ns_req_ne_err _)), he]
    simp [entryVal, hv]
  exact Store.entryInt_incr_of_int _ _ h2

lemma DoCtx_fastFail (b : Breaker) (s : Store) (name : String) (w : Option String)
    (now : Int) (h1 : (b.init s name).2.1 = circuitStateOpened)
    (h2 : 0 < (b.init s name).2.2) :
    b.DoCtx s name w now = ((b.init s name).1, false, DoResult.circuitOpen) := by
  unfold Breaker.DoCtx
  simp only [h1, h2, and_self, if_true]

lemma DoCtx_closed_success (b : Breaker) (s : Store) (name : String) (now : Int)
    (h : (b.init s name).2.1 = circuitStateClosed) :
    b.DoCtx s name none now
      = ((b.preRun (b.init s name).1 name).1, true, DoResult.ok) := by
  unfold Breaker.DoCtx
  simp [h, circuitStateClosed, circuitStateOpened, circuitStateHalfOpened]

lemma DoCtx_closed_fail (b : Breaker) (s : Store) (name msg : String) (now : Int)
    (h : (b.init s name).2.1 = circuitStateClosed) :
    b.DoCtx s name (some msg) now
      = (if (b.preRun (b.init s name).1 name).2.1 < b.requestCountThreshold ∨
            errPercentage (b.preRun (b.init s name).1 name).2.2
              (b.preRun (b.init s name).1 name).2.1 < b.errorPercentThreshold
        then (b.recordError (b.preRun (b.init s name).1 name).1 name, true,
          DoResult.workErr msg)
        else (b.flipOpen (b.preRun (b.init s name).1 name).1 name now, true,
          DoResult.workErr msg)) := by
  unfold Breaker.DoCtx
  simp [h, circuitStateClosed, circuitStateOpened, circuitStateHalfOpened]

lemma DoCtx_half_success (b : Breaker) (s : Store) (name : String) (now : Int)
    (h1 : (b.init s name).2.1 = circuitStateOpened)
    (h2 : (b.init s name).2.2 ≤ 0) :
    b.DoCtx s name none now
      = (b.flipClose (b.preRun (b.init s name).1 name).1 name, true, DoResult.ok) := by
  unfold Breaker.DoCtx
  simp [h1, not_lt.mpr h2, circuitStateOpened, circuitStateHalfOpened]

lemma DoCtx_half_fail (b : Breaker) (s : Store) (name msg : String) (now : Int)
    (h1 : (b.init s name).2.1 = circuitStateOpened)
    (h2 : (b.init s name).2.2 ≤ 0) :
    b.DoCtx s name (some msg) now
      = (b.flipOpen (b.preRun (b.init s name).1 name).1 name now, true,
        DoResult.workErr msg) := by
  unfold Breaker.DoCtx
  simp [h1, not_lt.mpr h2, circuitStateOpened, circuitStateHalfOpened]

lemma Store.data_incr_none (s : Store) (k : String) (h : s.data k = none) :
    (s.incr k).data k = some ⟨Val.int 1, none⟩ := by
  unfold Store.incr
  rw [h]
  simp

lemma Store.data_expireNX_fresh (s : Store) (k : String) (t : Int) {v : Val}
    (h : s.data k = some ⟨v, none⟩) :
    (s.expireNX k t).data k = some ⟨v, some t⟩ := by
  unfold Store.expireNX
  rw [h]
  simp

lemma Store.data_setnx_none (s : Store) (k : String) (v : Val)
    (h : s.data k = none) : (s.setnx k v).data k = some ⟨v, none⟩ := by
  unfold Store.setnx
  rw [h, Store.data_set_self]

lemma init_state_eq (b : Breaker) (s : Store) (name : String) :
    (b.init s name).2.1
      = entryStr (((b.init s name).1).data (newNamespacer name).currentState) := rfl

lemma init_osTTL_eq (b : Breaker) (s : Store) (name : String) :
    (b.init s name).2.2
      = entryInt (((b.init s name).1).data (newNamespacer name).openStateTTL) := rfl

lemma init_state_of_entry (b : Breaker) (s : Store) (name : String) {e : Entry}
    (hSt : s.data (newNamespacer name).currentState = some e)
    (hv : e.val = Val.str circuitStateOpened) :
    (b.init s name).2.1 = circuitStateOpened := by
  rw [init_state_eq, init_of_present b s name hSt, hSt]
  simp [entryStr, hv]

lemma init_osTTL_of_present (b : Breaker) (s : Store) (name : String) {e : Entry}
    (hSt : s.data (newNamespacer name).currentState = some e) :
    (b.init s name).2.2 = entryInt (s.data (newNamespacer name).openStateTTL) := by
  rw [init_osTTL_eq, init_of_present b s name hSt]

lemma preRun_req_val (b : Breaker) (s : Store) (name : String)
    (hR : intLike (s.data (newNamespacer name).requestCount)) :
    entryInt (((b.preRun s name).1).data (newNamespacer name).requestCount)
      = entryInt (s.data (newNamespacer name).requestCount) + 1 :=
  preRun_req_count b s name hR

lemma preRun_err_val (b : Breaker) (s : Store) (name : String) :
    entryInt (((b.preRun s name).1).data (newNamespacer name).errorCount)
      = entryInt (s.data (newNamespacer name).errorCount) :=
  preRun_err_count b s name

lemma preRun_fresh_req (b : Breaker) (s : Store) (name : String)
    (hR : s.data (newNamespacer name).requestCount = none) :
    ((b.preRun s name).1).data (newNamespacer name).requestCount
      = some ⟨Val.int 1, some b.interval⟩ := by
  rw [preRun_store, Store.data_expireNX_ne _ _ _ (ns_req_ne_err _)]
  apply Store.data_expireNX_fresh
  rw [Store.data_setnx_ne _ _ _ (ns_req_ne_err _)]
  exact Store.data_incr_none _ _ hR

lemma preRun_fresh_err (b : Breaker) (s : Store) (name : String)
    (hE : s.data (newNamespacer name).errorCount = none) :
    ((b.preRun s name).1).data (newNamespacer name).errorCount
      = some ⟨Val.int 0, some b.interval⟩ := by
  rw [preRun_store]
  apply Store.data_expireNX_fresh
  rw [Store.data_expireNX_ne _ _ _ (Ne.symm (ns_req_ne_err _))]
  apply Store.data_setnx_none
  rw [Store.data_incr_ne _ _ (Ne.symm (ns_req_ne_err _))]
  exact hE

/-! Concrete fixtures used by witnesses and counterexamples.  `bTest` has
interval 10s, request-count threshold 2, error-percent threshold 50 and
sleep window 10s, the configuration of the repository's own tests. -/

def bTest : Breaker := ⟨10, 2, 50, 10⟩

def nsT : namespacer := newNamespacer "x"

/-- A store whose breaker is open with a live marker (5s left). -/
def sOpenLive : Store :=
  ⟨fun k =>
    if k = nsT.currentState then some ⟨Val.str circuitStateOpened, none⟩
    else if k = nsT.openStateTTL then some ⟨Val.int 1, some 5⟩
    else none⟩

/-- A store whose breaker is open with the marker already expired. -/
def sOpenStale : Store :=
  ⟨fun k =>
    if k = nsT.currentState then some ⟨Val.str circuitStateOpened, none⟩
    else none⟩

/-- Open with expired marker and live counters, request 5 and error 3. -/
def sHalfCounters : Store :=
  ⟨fun k =>
    if k = nsT.currentState then some ⟨Val.str circuitStateOpened, none⟩
    else if k = nsT.requestCount then some ⟨Val.int 5, some 7⟩
    else if k = nsT.errorCount then some ⟨Val.int 3, some 7⟩
    else none⟩

/-- A fresh store with only the request counter pre-seeded to 1. -/
def sSeedReq : Store :=
  ⟨fun k => if k = nsT.requestCount then some ⟨Val.int 1, none⟩ else none⟩

/-- Two failing calls on `bTest` from an empty store: the second one trips
the threshold (request count 2, error ratio 100) and opens the circuit. -/
def sOpenedTwice : Store :=
  (bTest.DoCtx ((bTest.DoCtx Store.empty "x" (some "e") 0).1) "x" (some "e") 0).1

lemma errPercentage_eq_spec (e r : Int) (hr : 0 < r) :
    errPercentage e r = specErrorRatio e r := by
  obtain ⟨d, rfl⟩ : ∃ d : ℕ, r = (d : ℤ) := ⟨r.toNat, (Int.toNat_of_nonneg hr.le).symm⟩
  unfold errPercentage specErrorRatio
  have hc : ((e : ℚ) + 1) * 100 = (((e + 1) * 100 : ℤ) : ℚ) := by push_cast; ring
  rw [div_mul_eq_mul_div, hc, Int.cast_natCast, Rat.floor_intCast_div_natCast]

lemma legacy_ratio_eval (e r : Int) (hr : 0 < r) :
    errPercentageLegacy e r = e + (if r = 1 then 100 else 0) := by
  unfold errPercentageLegacy
  by_cases h1 : r = 1
  · subst h1; norm_num
  · have h2 : (1 : ℤ) < r := by omega
    rw [Int.ediv_eq_zero_of_lt (by norm_num) h2]
    simp [h1]

/-- C1: with stored state OPENED and a live open-state marker, DoCtx
returns the circuit-open error at once, the wrapped work is not executed
(the Bool component is false), and the store — counters included — is
returned exactly as it was. -/
theorem C1_open_fast_fail (b : Breaker) (s : Store) (name : String)
    (w : Option String) (now : Int) (e : Entry)
    (hSt : s.data (newNamespacer name).currentState = some e)
    (hv : e.val = Val.str circuitStateOpened)
    (hM : 0 < entryInt (s.data (newNamespacer name).openStateTTL)) :
    b.DoCtx s name w now = (s, false, DoResult.circuitOpen) := by
  have hI := init_of_present b s name hSt
  have h1 := init_state_of_entry b s name hSt hv
  have h2 : 0 < (b.init s name).2.2 := by
    rw [init_osTTL_of_present b s name hSt]
    exact hM
  rw [DoCtx_fastFail b s name w now h1 h2, hI]

/-- Witness for C1 at a concrete open store with a live marker. -/
theorem C1_witness :
    sOpenLive.data (newNamespacer "x").currentState
        = some ⟨Val.str circuitStateOpened, none⟩ ∧
    0 < entryInt (sOpenLive.data (newNamespacer "x").openStateTTL) ∧
    bTest.DoCtx sOpenLive "x" (some "boom") 7 = (sOpenLive, false, DoResult.circuitOpen) :=
  ⟨by decide, by decide,
    C1_open_fast_fail bTest sOpenLive "x" (some "boom") 7
      ⟨Val.str circuitStateOpened, none⟩ (by decide) rfl (by decide)⟩

/-- C4: a call whose effective state is HalfOpen (stored OPENED, marker
read as ≤ 0) and whose work fails atomically reopens: stored state is set
to OPENED and the marker is written with TTL exactly the sleep window,
whatever marker state was there before; the work's error is returned. -/
theorem C4_half_open_fail_reopens (b : Breaker) (s : Store) (name msg : String)
    (now : Int) (e : Entry)
    (hSt : s.data (newNamespacer name).currentState = some e)
    (hv : e.val = Val.str circuitStateOpened)
    (hM : entryInt (s.data (newNamespacer name).openStateTTL) ≤ 0) :
    ((b.DoCtx s name (some msg) now).1).data (newNamespacer name).currentState
        = some ⟨Val.str circuitStateOpened, none⟩ ∧
    ((b.DoCtx s name (some msg) now).1).data (newNamespacer name).openStateTTL
        = some ⟨Val.int 1, some b.sleepWindow⟩ ∧
    (b.DoCtx s name (some msg) now).2 = (true, DoResult.workErr msg) := by
  have h1 := init_state_of_entry b s name hSt hv
  have h2 : (b.init s name).2.2 ≤ 0 := by
    rw [init_osTTL_of_present b s name hSt]
    exact hM
  rw [DoCtx_half_fail b s name msg now h1 h2]
  exact ⟨flipOpen_data_state _ _ _ _, flipOpen_data_marker _ _ _ _, rfl⟩

/-- Witness for C4 at a concrete open store whose marker is gone. -/
theorem C4_witness :
    sOpenStale.data (newNamespacer "x").currentState
        = some ⟨Val.str circuitStateOpened, none⟩ ∧
    entryInt (sOpenStale.data (newNamespacer "x").openStateTTL) ≤ 0 ∧
    (((bTest.DoCtx sOpenStale "x" (some "boom") 42).1).data
        (newNamespacer "x").currentState = some ⟨Val.str circuitStateOpened, none⟩ ∧
      ((bTest.DoCtx sOpenStale "x" (some "boom") 42).1).data
        (newNamespacer "x").openStateTTL = some ⟨Val.int 1, some bTest.sleepWindow⟩ ∧
      (bTest.DoCtx sOpenStale "x" (some "boom") 42).2
        = (true, DoResult.workErr "boom")) :=
  ⟨by decide, by decide,
    C4_half_open_fail_reopens bTest sOpenStale "x" "boom" 42
      ⟨Val.str circuitStateOpened, none⟩ (by decide) rfl (by decide)⟩

/-- C9: from a store with no stored state for the name, one successful
guarded call ends with request count 1, error count 0 (both with the
rolling-interval expiry), stored state CLOSED, and the final store is
exactly the one produced by init and pre-run — no post-outcome write. -/
theorem C9_fresh_success (b : Breaker) (s : Store) (name : String) (now : Int)
    (hS : s.data (newNamespacer name).currentState = none)
    (hR : s.data (newNamespacer name).requestCount = none)
    (hE : s.data (newNamespacer name).errorCount = none) :
    b.DoCtx s name none now
        = ((b.preRun (b.init s name).1 name).1, true, DoResult.ok) ∧
    ((b.DoCtx s name none now).1).data (newNamespacer name).requestCount
        = some ⟨Val.int 1, some b.interval⟩ ∧
    ((b.DoCtx s name none now).1).data (newNamespacer name).errorCount
        = some ⟨Val.int 0, some b.interval⟩ ∧
    ((b.DoCtx s name none now).1).data (newNamespacer name).currentState
        = some ⟨Val.str circuitStateClosed, none⟩ := by
  have hInit : (b.init s name).2.1 = circuitStateClosed := by
    rw [init_state_eq, init_store, Store.data_setnx_none _ _ _ hS]
    rfl
  have hMain := DoCtx_closed_success b s name now hInit
  have hS1R : ((b.init s name).1).data (newNamespacer name).requestCount = none := by
    rw [init_data_ne b s name (Ne.symm (ns_state_ne_req _))]
    exact hR
  have hS1E : ((b.init s name).1).data (newNamespacer name).errorCount = none := by
    rw [init_data_ne b s name (Ne.symm (ns_state_ne_err _))]
    exact hE
  refine ⟨hMain, ?_, ?_, ?_⟩
  · rw [hMain]
    exact preRun_fresh_req b _ name hS1R
  · rw [hMain]
    exact preRun_fresh_err b _ name hS1E
  · rw [hMain]
    rw [preRun_data_ne b _ name (ns_state_ne_req _) (ns_state_ne_err _),
      init_store, Store.data_setnx_none _ _ _ hS]

/-- Witness for C9 at the empty store. -/
theorem C9_witness :
    Store.empty.data (newNamespacer "x").currentState = none ∧
    Store.empty.data (newNamespacer "x").requestCount = none ∧
    Store.empty.data (newNamespacer "x").errorCount = none ∧
    (bTest.DoCtx Store.empty "x" none 3
        = ((bTest.preRun (bTest.init Store.empty "x").1 "x").1, true, DoResult.ok) ∧
      ((bTest.DoCtx Store.empty "x" none 3).1).data (newNamespacer "x").requestCount
        = some ⟨Val.int 1, some bTest.interval⟩ ∧
      ((bTest.DoCtx Store.empty "x" none 3).1).data (newNamespacer "x").errorCount
        = some ⟨Val.int 0, some bTest.interval⟩ ∧
      ((bTest.DoCtx Store.empty "x" none 3).1).data (newNamespacer "x").currentState
        = some ⟨Val.str circuitStateClosed, none⟩) :=
  ⟨rfl, rfl, rfl, C9_fresh_success bTest Store.empty "x" 3 rfl rfl rfl⟩

/-- C10: a half-open probe (stored OPENED, marker read as ≤ 0) still
increments the request counter in pre-run, but a failing probe never
increments the error counter: the failure path goes straight to flipOpen
and skips recordError. -/
theorem C10_half_open_fail_counters (b : Breaker) (s : Store) (name msg : String)
    (now : Int) (e : Entry)
    (hSt : s.data (newNamespacer name).currentState = some e)
    (hv : e.val = Val.str circuitStateOpened)
    (hM : entryInt (s.data (newNamespacer name).openStateTTL) ≤ 0)
    (hR : intLike (s.data (newNamespacer name).requestCount)) :
    reqOf ((b.DoCtx s name (some msg) now).1) name = reqOf s name + 1 ∧
    errOf ((b.DoCtx s name (some msg) now).1) name = errOf s name := by
  have h1 := init_state_of_entry b s name hSt hv
  have h2 : (b.init s name).2.2 ≤ 0 := by
    rw [init_osTTL_of_present b s name hSt]
    exact hM
  have hI := init_of_present b s name hSt
  rw [DoCtx_half_fail b s name msg now h1 h2, hI]
  constructor
  · show entryInt _ = entryInt _ + 1
    rw [flipOpen_data_ne b _ name now (Ne.symm (ns_state_ne_req _))
      (ns_req_ne_marker _) (ns_req_ne_last _)]
    exact preRun_req_val b s name hR
  · show entryInt _ = entryInt _
    rw [flipOpen_data_ne b _ name now (Ne.symm (ns_state_ne_err _))
      (ns_err_ne_marker _) (ns_err_ne_last _)]
    exact preRun_err_val b s name


/-- Witness for C10 at a concrete open store with expired marker. -/
theorem C10_witness :
    sOpenStale.data (newNamespacer "x").currentState
        = some ⟨Val.str circuitStateOpened, none⟩ ∧
    entryInt (sOpenStale.data (newNamespacer "x").openStateTTL) ≤ 0 ∧
    intLike (sOpenStale.data (newNamespacer "x").requestCount) ∧
    (reqOf ((bTest.DoCtx sOpenStale "x" (some "p") 9).1) "x" = reqOf sOpenStale "x" + 1 ∧
      errOf ((bTest.DoCtx sOpenStale "x" (some "p") 9).1) "x" = errOf sOpenStale "x") :=
  ⟨by decide, by decide, by trivial,
    C10_half_open_fail_counters bTest sOpenStale "x" "p" 9
      ⟨Val.str circuitStateOpened, none⟩ (by decide) rfl (by decide) (by trivial)⟩

/-- Second test configuration: threshold 3, error percent 40. -/
def bThree : Breaker := ⟨10, 3, 40, 10⟩

/-- Counterexample to C5: flipClose does not leave the counters unchanged.
On a half-open success from a store holding request count 5 and error
count 3, both counter keys are deleted by the flip-close write. -/
theorem C5_counterexample :
    sHalfCounters.data (newNamespacer "x").requestCount = some ⟨Val.int 5, some 7⟩ ∧
    sHalfCounters.data (newNamespacer "x").errorCount = some ⟨Val.int 3, some 7⟩ ∧
    ((bTest.DoCtx sHalfCounters "x" none 0).1).data (newNamespacer "x").requestCount
      = none ∧
    ((bTest.DoCtx sHalfCounters "x" none 0).1).data (newNamespacer "x").errorCount
      = none :=
  ⟨by decide, by decide, by decide, by decide⟩

/-- C5 as amended: a half-open success flips the state to CLOSED, deletes
the open-state marker, and also deletes both counters (resetting the
window); every other store key is left unchanged. -/
theorem C5_amended_flip_close (b : Breaker) (s : Store) (name : String)
    (now : Int) (e : Entry)
    (hSt : s.data (newNamespacer name).currentState = some e)
    (hv : e.val = Val.str circuitStateOpened)
    (hM : entryInt (s.data (newNamespacer name).openStateTTL) ≤ 0) :
    (b.DoCtx s name none now).2 = (true, DoResult.ok) ∧
    ((b.DoCtx s name none now).1).data (newNamespacer name).currentState
      = some ⟨Val.str circuitStateClosed, none⟩ ∧
    ((b.DoCtx s name none now).1).data (newNamespacer name).openStateTTL = none ∧
    ((b.DoCtx s name none now).1).data (newNamespacer name).requestCount = none ∧
    ((b.DoCtx s name none now).1).data (newNamespacer name).errorCount = none ∧
    ∀ q, q ≠ (newNamespacer name).currentState →
      q ≠ (newNamespacer name).openStateTTL →
      q ≠ (newNamespacer name).requestCount →
      q ≠ (newNamespacer name).errorCount →
      ((b.DoCtx s name none now).1).data q = s.data q := by
  have h1 := init_state_of_entry b s name hSt hv
  have h2 : (b.init s name).2.2 ≤ 0 := by
    rw [init_osTTL_of_present b s name hSt]
    exact hM
  have hI := init_of_present b s name hSt
  rw [DoCtx_half_success b s name now h1 h2, hI]
  refine ⟨rfl, ?_, ?_, ?_, ?_, ?_⟩
  · exact flipClose_data_state b ((b.preRun s name).1) name
  · exact flipClose_data_marker b ((b.preRun s name).1) name
  · exact flipClose_data_req b ((b.preRun s name).1) name
  · exact flipClose_data_err b ((b.preRun s name).1) name
  · intro q hqS hqM hqR hqE
    show (b.flipClose ((b.preRun s name).1) name).data q = s.data q
    rw [flipClose_data_ne b _ name hqS hqM hqR hqE, preRun_data_ne b s name hqR hqE]

/-- Witness for the amended C5 at a concrete store, including one
concrete untouched key. -/
theorem C5_witness :
    sHalfCounters.data (newNamespacer "x").currentState
      = some ⟨Val.str circuitStateOpened, none⟩ ∧
    entryInt (sHalfCounters.data (newNamespacer "x").openStateTTL) ≤ 0 ∧
    (bTest.DoCtx sHalfCounters "x" none 4).2 = (true, DoResult.ok) ∧
    ((bTest.DoCtx sHalfCounters "x" none 4).1).data (newNamespacer "x").currentState
      = some ⟨Val.str circuitStateClosed, none⟩ ∧
    ((bTest.DoCtx sHalfCounters "x" none 4).1).data (newNamespacer "x").openStateTTL
      = none ∧
    ((bTest.DoCtx sHalfCounters "x" none 4).1).data "other"
      = sHalfCounters.data "other" := by
  have T := C5_amended_flip_close bTest sHalfCounters "x" 4
    ⟨Val.str circuitStateOpened, none⟩ (by decide) rfl (by decide)
  exact ⟨by decide, by decide, T.1, T.2.1, T.2.2.1,
    T.2.2.2.2.2 "other" (by decide) (by decide) (by decide) (by decide)⟩

/-- Counterexample to C2: the legacy Do opens the circuit on the very
first failure — request count 1, below the threshold 2 — because its
no-flip guard uses AND, i.e. it opens when either condition holds. -/
theorem C2_counterexample :
    stateOf ((bTest.Do Store.empty "x" (some "boom")).1) "x" = circuitStateOpened ∧
    reqOf ((bTest.Do Store.empty "x" (some "boom")).1) "x" = 1 ∧
    (1 : Int) < bTest.requestCountThreshold :=
  ⟨by decide, by decide, by decide⟩

/-- C2 as amended, for the current DoCtx path: on a failing call with
effective state Closed the circuit is opened iff both post-increment
request count ≥ requestCountThreshold and the computed error percent ≥
errorPercentThreshold hold; otherwise the error is recorded (error count
becomes its pre-run reading plus one) and the state stays CLOSED. -/
theorem C2_amended_closed_open_iff (b : Breaker) (s : Store) (name msg : String)
    (now : Int)
    (hInit : (b.init s name).2.1 = circuitStateClosed)
    (hR : intLike (s.data (newNamespacer name).requestCount))
    (hE : intLike (s.data (newNamespacer name).errorCount)) :
    (stateOf ((b.DoCtx s name (some msg) now).1) name = circuitStateOpened ↔
      (b.requestCountThreshold ≤ (b.preRun (b.init s name).1 name).2.1 ∧
        b.errorPercentThreshold ≤ errPercentage
          (b.preRun (b.init s name).1 name).2.2
          (b.preRun (b.init s name).1 name).2.1)) ∧
    (((b.preRun (b.init s name).1 name).2.1 < b.requestCountThreshold ∨
        errPercentage (b.preRun (b.init s name).1 name).2.2
          (b.preRun (b.init s name).1 name).2.1 < b.errorPercentThreshold) →
      stateOf ((b.DoCtx s name (some msg) now).1) name = circuitStateClosed ∧
      errOf ((b.DoCtx s name (some msg) now).1) name
        = (b.preRun (b.init s name).1 name).2.2 + 1) := by
  have hs1E : ((b.init s name).1).data (newNamespacer name).errorCount
      = s.data (newNamespacer name).errorCount :=
    init_data_ne b s name (Ne.symm (ns_state_ne_err _))
  rw [DoCtx_closed_fail b s name msg now hInit]
  by_cases hc : (b.preRun (b.init s name).1 name).2.1 < b.requestCountThreshold ∨
      errPercentage (b.preRun (b.init s name).1 name).2.2
        (b.preRun (b.init s name).1 name).2.1 < b.errorPercentThreshold
  · rw [if_pos hc]
    have hstate : stateOf
        (b.recordError ((b.preRun (b.init s name).1 name).1) name) name
        = circuitStateClosed := by
      unfold stateOf
      rw [recordError_data_ne b _ name (ns_state_ne_req _) (ns_state_ne_err _),
        preRun_data_ne b _ name (ns_state_ne_req _) (ns_state_ne_err _),
        ← init_state_eq]
      exact hInit
    refine ⟨?_, fun _ => ⟨hstate, ?_⟩⟩
    · rw [hstate]
      constructor
      · intro hOp
        exact absurd hOp (by decide)
      · intro hand
        rcases hc with h | h
        · exact absurd hand.1 (by omega)
        · exact absurd hand.2 (by omega)
    · have hEv := preRun_err_isInt b (b.init s name).1 name (by rw [hs1E]; exact hE)
      show entryInt _ = _
      rw [recordError_err_count b _ name hEv, preRun_err_count b _ name, hs1E]
  · rw [if_neg hc]
    push_neg at hc
    have hstate : stateOf
        (b.flipOpen ((b.preRun (b.init s name).1 name).1) name now) name
        = circuitStateOpened := by
      unfold stateOf
      rw [flipOpen_data_state]
      rfl
    refine ⟨by rw [hstate]; exact iff_of_true rfl hc, fun hcon => ?_⟩
    rcases hcon with h | h
    · exact absurd hc.1 (by omega)
    · exact absurd hc.2 (by omega)

/-- Witness for the amended C2 on a fresh store: the first failure leaves
the circuit CLOSED (request count 1 is below the threshold 2) and records
error count 1. -/
theorem C2_witness :
    (bTest.init Store.empty "x").2.1 = circuitStateClosed ∧
    ((stateOf ((bTest.DoCtx Store.empty "x" (some "boom") 0).1) "x"
        = circuitStateOpened ↔
      (bTest.requestCountThreshold
          ≤ (bTest.preRun (bTest.init Store.empty "x").1 "x").2.1 ∧
        bTest.errorPercentThreshold ≤ errPercentage
          (bTest.preRun (bTest.init Store.empty "x").1 "x").2.2
          (bTest.preRun (bTest.init Store.empty "x").1 "x").2.1)) ∧
    (((bTest.preRun (bTest.init Store.empty "x").1 "x").2.1
          < bTest.requestCountThreshold ∨
        errPercentage (bTest.preRun (bTest.init Store.empty "x").1 "x").2.2
          (bTest.preRun (bTest.init Store.empty "x").1 "x").2.1
          < bTest.errorPercentThreshold) →
      stateOf ((bTest.DoCtx Store.empty "x" (some "boom") 0).1) "x"
        = circuitStateClosed ∧
      errOf ((bTest.DoCtx Store.empty "x" (some "boom") 0).1) "x"
        = (bTest.preRun (bTest.init Store.empty "x").1 "x").2.2 + 1)) :=
  ⟨by decide,
    C2_amended_closed_open_iff bTest Store.empty "x" "boom" 0 (by decide)
      (by trivial) (by trivial)⟩

/-- Counterexample to C6: when the wrapped work fails under the legacy Do
(closed path), the call returns nil, not the work's own error. -/
theorem C6_counterexample :
    (bTest.Do Store.empty "x" (some "boom")).2 = (true, DoResult.ok) ∧
    DoResult.ok ≠ DoResult.workErr "boom" :=
  ⟨by decide, by decide⟩

/-- C6 as amended, for the current DoCtx path: on every call that is not
fast-failed and whose work fails, the work is executed and its own error
is returned unchanged. -/
theorem C6_amended_fail_returns_work_error (b : Breaker) (s : Store)
    (name msg : String) (now : Int)
    (hNo : ¬((b.init s name).2.1 = circuitStateOpened ∧ 0 < (b.init s name).2.2)) :
    (b.DoCtx s name (some msg) now).2 = (true, DoResult.workErr msg) := by
  simp only [Breaker.DoCtx]
  rw [if_neg hNo]
  repeat' split
  all_goals rfl

/-- Witness for the amended C6 on a fresh (closed) store. -/
theorem C6_witness :
    ¬((bTest.init Store.empty "x").2.1 = circuitStateOpened ∧
        0 < (bTest.init Store.empty "x").2.2) ∧
    (bTest.DoCtx Store.empty "x" (some "boom") 1).2
      = (true, DoResult.workErr "boom") :=
  ⟨by decide,
    C6_amended_fail_returns_work_error bTest Store.empty "x" "boom" 1 (by decide)⟩

/-- C3 as amended: the DoCtx path computes the ratio exactly as the spec's
formula (errorCount+1)/requestCount*100 in real arithmetic, truncated;
the legacy Do path instead computes errCount + (1/reqCount)*100 in integer
arithmetic, which is errCount + 100 when reqCount = 1 and plain errCount
otherwise. -/
theorem C3_amended_ratio (e r : Int) (hr : 0 < r) :
    errPercentage e r = specErrorRatio e r ∧
    errPercentageLegacy e r = e + (if r = 1 then 100 else 0) :=
  ⟨errPercentage_eq_spec e r hr, legacy_ratio_eval e r hr⟩

/-- Witness for the amended C3 at errCount 3, reqCount 4. -/
theorem C3_witness :
    (0 : Int) < 4 ∧
    (errPercentage 3 4 = specErrorRatio 3 4 ∧
      errPercentageLegacy 3 4 = 3 + (if (4 : Int) = 1 then 100 else 0)) :=
  ⟨by decide, C3_amended_ratio 3 4 (by decide)⟩

/-- Counterexample to C3: at post-increment request count 2 and error
count 0, the legacy formula yields 0 while the claimed formula yields 50;
run through Breaker.Do (threshold 3, error percent 40) the call records
the error and stays CLOSED although the claimed ratio 50 is above 40. -/
theorem C3_counterexample :
    errPercentageLegacy 0 2 = 0 ∧
    specErrorRatio 0 2 = 50 ∧
    stateOf ((bThree.Do sSeedReq "x" (some "e")).1) "x" = circuitStateClosed ∧
    reqOf ((bThree.Do sSeedReq "x" (some "e")).1) "x" = 2 ∧
    errOf ((bThree.Do sSeedReq "x" (some "e")).1) "x" = 1 :=
  ⟨by decide,
    by rw [← errPercentage_eq_spec 0 2 (by norm_num)]; decide,
    by decide, by decide, by decide⟩

lemma DoCtx_store_cases (b : Breaker) (s : Store) (name : String)
    (w : Option String) (now : Int) :
    (b.DoCtx s name w now).1 = (b.init s name).1 ∨
    (b.DoCtx s name w now).1 = (b.preRun (b.init s name).1 name).1 ∨
    (b.DoCtx s name w now).1
      = b.flipClose (b.preRun (b.init s name).1 name).1 name ∨
    (b.DoCtx s name w now).1
      = b.flipOpen (b.preRun (b.init s name).1 name).1 name now ∨
    (b.DoCtx s name w now).1
      = b.recordError (b.preRun (b.init s name).1 name).1 name := by
  simp only [Breaker.DoCtx]
  repeat' split
  all_goals simp

/-- Counterexample to C8: a half-open failing call writes a fifth key.
flipOpen stores the current time under the last-opened-at key, which is
none of the four keys the claim allows. -/
theorem C8_counterexample :
    sOpenStale.data (newNamespacer "x").lastOpenedAt = none ∧
    ((bTest.DoCtx sOpenStale "x" (some "e") 42).1).data
      (newNamespacer "x").lastOpenedAt = some ⟨Val.int 42, none⟩ ∧
    (newNamespacer "x").lastOpenedAt ≠ (newNamespacer "x").currentState ∧
    (newNamespacer "x").lastOpenedAt ≠ (newNamespacer "x").requestCount ∧
    (newNamespacer "x").lastOpenedAt ≠ (newNamespacer "x").errorCount ∧
    (newNamespacer "x").lastOpenedAt ≠ (newNamespacer "x").openStateTTL :=
  ⟨by decide, by decide, by decide, by decide, by decide, by decide⟩

/-- C8 as amended: every store key a guarded call writes is among the five
namespaced keys for the breaker name — the four of the namespacer plus the
last-opened-at timestamp key written by flipOpen; any other key is left
exactly as it was. -/
theorem C8_amended_writes_only_five (b : Breaker) (s : Store) (name : String)
    (w : Option String) (now : Int) (q : String)
    (hS : q ≠ (newNamespacer name).currentState)
    (hR : q ≠ (newNamespacer name).requestCount)
    (hE : q ≠ (newNamespacer name).errorCount)
    (hM : q ≠ (newNamespacer name).openStateTTL)
    (hL : q ≠ (newNamespacer name).lastOpenedAt) :
    ((b.DoCtx s name w now).1).data q = s.data q := by
  rcases DoCtx_store_cases b s name w now with h | h | h | h | h <;> rw [h]
  · exact init_data_ne b s name hS
  · rw [preRun_data_ne b _ name hR hE]
    exact init_data_ne b s name hS
  · rw [flipClose_data_ne b _ name hS hM hR hE, preRun_data_ne b _ name hR hE]
    exact init_data_ne b s name hS
  · rw [flipOpen_data_ne b _ name now hS hM hL, preRun_data_ne b _ name hR hE]
    exact init_data_ne b s name hS
  · rw [recordError_data_ne b _ name hR hE, preRun_data_ne b _ name hR hE]
    exact init_data_ne b s name hS

/-- Witness for the amended C8: a concrete unrelated key survives a
concrete guarded call untouched. -/
theorem C8_witness :
    ("other" : String) ≠ (newNamespacer "x").currentState ∧
    ("other" : String) ≠ (newNamespacer "x").requestCount ∧
    ("other" : String) ≠ (newNamespacer "x").errorCount ∧
    ("other" : String) ≠ (newNamespacer "x").openStateTTL ∧
    ("other" : String) ≠ (newNamespacer "x").lastOpenedAt ∧
    ((bTest.DoCtx sOpenStale "x" (some "e") 42).1).data "other"
      = sOpenStale.data "other" :=
  ⟨by decide, by decide, by decide, by decide, by decide,
    C8_amended_writes_only_five bTest sOpenStale "x" (some "e") 42 "other"
      (by decide) (by decide) (by decide) (by decide) (by decide)⟩

lemma Store.data_tick_none (s : Store) (dt : Int) {q : String}
    (h : s.data q = none) : (s.tick dt).data q = none := by
  simp [Store.tick, h]

lemma Store.data_tick_noTTL (s : Store) (dt : Int) {q : String} {v : Val}
    (h : s.data q = some ⟨v, none⟩) : (s.tick dt).data q = some ⟨v, none⟩ := by
  simp [Store.tick, h]

lemma Store.data_tick_ttl (s : Store) (dt : Int) {q : String} {v : Val} {t : Int}
    (h : s.data q = some ⟨v, some t⟩) :
    (s.tick dt).data q
      = if t ≤ dt then none else some ⟨v, some (t - dt)⟩ := by
  simp [Store.tick, h]

/-- Whenever the open-state marker key is present, the stored state is
OPENED (with no expiry on the state key) and the marker holds the value 1
with some expiry — the shape flipOpen writes and tick shrinks. -/
def MarkerInv (s : Store) (name : String) : Prop :=
  ∀ e, s.data (newNamespacer name).openStateTTL = some e →
    s.data (newNamespacer name).currentState
        = some ⟨Val.str circuitStateOpened, none⟩ ∧
    ∃ t, e = ⟨Val.int 1, some t⟩

lemma markerInv_call (b : Breaker) (s : Store) (name : String)
    (w : Option String) (now : Int) (ih : MarkerInv s name) :
    MarkerInv ((b.DoCtx s name w now).1) name := by
  cases hm : s.data (newNamespacer name).openStateTTL with
  | some e0 =>
    obtain ⟨hstate, t0, he0⟩ := ih e0 hm
    have h1 : (b.init s name).2.1 = circuitStateOpened :=
      init_state_of_entry b s name hstate rfl
    have h2 : 0 < (b.init s name).2.2 := by
      rw [init_osTTL_of_present b s name hstate, hm, he0]
      simp [entryInt]
    rw [DoCtx_fastFail b s name w now h1 h2, init_of_present b s name hstate]
    exact ih
  | none =>
    rcases DoCtx_store_cases b s name w now with h | h | h | h | h <;> rw [h]
    · intro e he
      rw [init_data_ne b s name (Ne.symm (ns_state_ne_marker _)), hm] at he
      cases he
    · intro e he
      rw [preRun_data_ne b _ name (Ne.symm (ns_req_ne_marker _))
          (Ne.symm (ns_err_ne_marker _)),
        init_data_ne b s name (Ne.symm (ns_state_ne_marker _)), hm] at he
      cases he
    · intro e he
      rw [flipClose_data_marker] at he
      cases he
    · intro e he
      rw [flipOpen_data_marker] at he
      exact ⟨flipOpen_data_state _ _ _ _, b.sleepWindow, (Option.some.inj he).symm⟩
    · intro e he
      rw [recordError_data_ne b _ name (Ne.symm (ns_req_ne_marker _))
          (Ne.symm (ns_err_ne_marker _)),
        preRun_data_ne b _ name (Ne.symm (ns_req_ne_marker _))
          (Ne.symm (ns_err_ne_marker _)),
        init_data_ne b s name (Ne.symm (ns_state_ne_marker _)), hm] at he
      cases he

lemma markerInv_tick (s : Store) (name : String) (dt : Int)
    (ih : MarkerInv s name) : MarkerInv (s.tick dt) name := by
  intro e he
  cases hm : s.data (newNamespacer name).openStateTTL with
  | none =>
    rw [Store.data_tick_none s dt hm] at he
    cases he
  | some e0 =>
    obtain ⟨hstate, t0, he0⟩ := ih e0 hm
    subst he0
    rw [Store.data_tick_ttl s dt hm] at he
    by_cases hle : t0 ≤ dt
    · rw [if_pos hle] at he
      cases he
    · rw [if_neg hle] at he
      exact ⟨Store.data_tick_noTTL s dt hstate, t0 - dt, (Option.some.inj he).symm⟩

lemma markerInv_reachable (b : Breaker) (name : String) (s : Store)
    (h : Reachable b name s) : MarkerInv s name := by
  induction h with
  | base =>
    intro e he
    cases he
  | call s w now hs ih => exact markerInv_call b s name w now ih
  | tick s dt hdt hs ih => exact markerInv_tick s name dt ih

/-- C7 as amended: in every reachable store, the open-state marker exists
only if the stored state is OPENED.  (The converse direction of the
claimed equivalence fails: the marker expires after the sleep window while
the stored state remains OPENED — which is exactly the absence signal that
admits the next call as a recovery probe.) -/
theorem C7_amended_marker_only_if_open (b : Breaker) (name : String) (s : Store)
    (h : Reachable b name s) (e : Entry) (hm : markerOf s name = some e) :
    stateOf s name = circuitStateOpened := by
  have hm' : s.data (newNamespacer name).openStateTTL = some e := hm
  obtain ⟨hstate, _⟩ := markerInv_reachable b name s h e hm'
  unfold stateOf
  rw [hstate]
  rfl

/-- Witness for the amended C7: after two failing calls the store is
reachable, holds a live marker, and its stored state is OPENED. -/
theorem C7_witness :
    Reachable bTest "x" sOpenedTwice ∧
    markerOf sOpenedTwice "x" = some ⟨Val.int 1, some 10⟩ ∧
    stateOf sOpenedTwice "x" = circuitStateOpened :=
  ⟨Reachable.call _ (some "e") 0 (Reachable.call _ (some "e") 0 Reachable.base),
    by decide,
    C7_amended_marker_only_if_open bTest "x" sOpenedTwice
      (Reachable.call _ (some "e") 0 (Reachable.call _ (some "e") 0 Reachable.base))
      ⟨Val.int 1, some 10⟩ (by decide)⟩

/-- Counterexample to C7: eleven seconds after the circuit opened, the
store is still reachable, the stored state is still OPENED, but the
marker key has expired — so "marker exists iff state is OPENED" fails. -/
theorem C7_counterexample :
    Reachable bTest "x" (Store.tick sOpenedTwice 11) ∧
    stateOf (Store.tick sOpenedTwice 11) "x" = circuitStateOpened ∧
    markerOf (Store.tick sOpenedTwice 11) "x" = none :=
  ⟨Reachable.tick sOpenedTwice 11 (by decide)
      (Reachable.call _ (some "e") 0 (Reachable.call _ (some "e") 0 Reachable.base)),
    by decide, by decide⟩
